import Mathlib

/-!
Shallow embedding of the resource-state-tracking utilities of
`utilities_vk.h` (the `vk_order_independent_transparency` sample):
the `BufferAndView` and `ImageAndView` wrappers, the `doTransition`
barrier helper, and the synchronization-state machine formed by
`create` / `transitionTo` / `endRenderPass` / `destroy`.

Handles (VkImage, VkImageView, VkBuffer, VkBufferView, nvvk allocations)
are modelled as natural numbers with 0 standing for `nullptr` / a
default-constructed null handle. Vulkan enumeration values and bit
masks are natural numbers with the numeric values of `vulkan_core.h`.
A command buffer is the list of pipeline-barrier commands recorded
into it, in order; `vkCmdPipelineBarrier` appends one command.
External collaborators (the allocator, `vkCreateImageView`, the device)
are opaque: the handles they would return are passed in as arguments,
and the destruction calls issued to them are returned as an action list.
Assertion failures are modelled by returning `none`.
-/

namespace VkOit

/-! ### Constants from vulkan_core.h used by utilities_vk.h -/

def VK_IMAGE_LAYOUT_UNDEFINED : Nat := 0

def VK_IMAGE_LAYOUT_DEPTH_STENCIL_ATTACHMENT_OPTIMAL : Nat := 3

def VK_PIPELINE_STAGE_TOP_OF_PIPE_BIT : Nat := 1

def VK_IMAGE_ASPECT_COLOR_BIT : Nat := 1

def VK_IMAGE_ASPECT_DEPTH_BIT : Nat := 2

def VK_IMAGE_ASPECT_STENCIL_BIT : Nat := 4

def VK_FORMAT_UNDEFINED : Nat := 0

def VK_FORMAT_D24_UNORM_S8_UINT : Nat := 129

def VK_FORMAT_D32_SFLOAT_S8_UINT : Nat := 130

def VK_QUEUE_FAMILY_IGNORED : Nat := 4294967295

def VK_BUFFER_USAGE_UNIFORM_TEXEL_BUFFER_BIT : Nat := 4

def VK_BUFFER_USAGE_STORAGE_TEXEL_BUFFER_BIT : Nat := 8

/-! ### Barrier structures -/

/-- The subresource range of a VkImageMemoryBarrier, as filled in by
`doTransition` (utilities_vk.h lines 226-230). -/
structure VkImageSubresourceRange where
  aspectMask : Nat
  baseMipLevel : Nat
  levelCount : Nat
  baseArrayLayer : Nat
  layerCount : Nat
deriving Repr, DecidableEq

/-- A VkImageMemoryBarrier, restricted to the fields `doTransition`
assigns (utilities_vk.h lines 220-232). -/
structure VkImageMemoryBarrier where
  srcAccessMask : Nat
  dstAccessMask : Nat
  oldLayout : Nat
  newLayout : Nat
  srcQueueFamilyIndex : Nat
  dstQueueFamilyIndex : Nat
  image : Nat
  subresourceRange : VkImageSubresourceRange
deriving Repr, DecidableEq

/-- A VkBufferMemoryBarrier, restricted to the fields
`BufferAndView::memoryBarrier` assigns (utilities_vk.h lines 162-169). -/
structure VkBufferMemoryBarrier where
  srcAccessMask : Nat
  dstAccessMask : Nat
  srcQueueFamilyIndex : Nat
  dstQueueFamilyIndex : Nat
  buffer : Nat
  offset : Nat
  size : Nat
deriving Repr, DecidableEq

/-- One recorded `vkCmdPipelineBarrier` call: its source and destination
stage masks and the buffer/image barriers it carries. -/
structure PipelineBarrierCmd where
  srcStageMask : Nat
  dstStageMask : Nat
  bufferBarriers : List VkBufferMemoryBarrier
  imageBarriers : List VkImageMemoryBarrier
deriving Repr, DecidableEq

/-- A command buffer is the list of recorded pipeline-barrier commands. -/
def CommandBuffer := List PipelineBarrierCmd

/-- An external destruction call issued to the device or allocator. -/
inductive DestroyAction where
  | destroyImageView : Nat → DestroyAction
  | destroyImage : Nat → DestroyAction
deriving Repr, DecidableEq

/-! ### doTransition (utilities_vk.h lines 209-235) -/

/-- `doTransition`: builds a single VkImageMemoryBarrier covering mip 0
(levelCount 1), layers 0..numLayers, ignored queue families, and records
one `vkCmdPipelineBarrier` with the given stage masks carrying it. -/
def doTransition (cmdBuffer : List PipelineBarrierCmd) (image aspect srcLayout srcStages srcAccesses dstLayout dstStages dstAccesses numLayers : Nat) : List PipelineBarrierCmd :=
  let barrier : VkImageMemoryBarrier :=
    { oldLayout := srcLayout
      newLayout := dstLayout
      srcQueueFamilyIndex := VK_QUEUE_FAMILY_IGNORED
      dstQueueFamilyIndex := VK_QUEUE_FAMILY_IGNORED
      image := image
      subresourceRange :=
        { aspectMask := aspect
          baseMipLevel := 0
          levelCount := 1
          baseArrayLayer := 0
          layerCount := numLayers }
      srcAccessMask := srcAccesses
      dstAccessMask := dstAccesses }
  cmdBuffer ++ [{ srcStageMask := srcStages, dstStageMask := dstStages,
                  bufferBarriers := [], imageBarriers := [barrier] }]

/-! ### BufferAndView (utilities_vk.h lines 106-173) -/

/-- `BufferAndView`: an NVVK buffer with an optional whole-buffer view.
Member initializers: view = nullptr, size = 0; the default-constructed
`nvvk::BufferDma` holds a null buffer handle. -/
structure BufferAndView where
  buffer : Nat
  view : Nat
  size : Nat
deriving Repr, DecidableEq

/-- The initial state of a default-constructed `BufferAndView`. -/
def initBufferAndView : BufferAndView :=
  { buffer := 0, view := 0, size := 0 }

/-- `BufferAndView::create` (lines 114-123): asserts the buffer handle is
null, takes a fresh buffer handle from the allocator, creates a view only
when the usage includes a texel-buffer bit, and records the size.
The handles the external allocator and `nvvk::createBufferView` would
return are supplied as `newBuffer` and `newView`; the assertion failure
on a live buffer is modelled by `none`. -/
def BufferAndView.create (s : BufferAndView) (newBuffer newView bufferSize bufferUsage : Nat) : Option BufferAndView :=
  if s.buffer = 0 then
    some { buffer := newBuffer
           view := if bufferUsage &&& (VK_BUFFER_USAGE_STORAGE_TEXEL_BUFFER_BIT ||| VK_BUFFER_USAGE_UNIFORM_TEXEL_BUFFER_BIT) ≠ 0
                   then newView else s.view
           size := bufferSize }
  else none

/-- `BufferAndView::memoryBarrier` (lines 156-172): records one
`vkCmdPipelineBarrier` with the two stage parameters as stage masks and
a single whole-buffer VkBufferMemoryBarrier. As in the source, the
barrier's srcAccessMask and dstAccessMask are assigned from
`stagesDependedUpon` and `stagesThatDepend` (lines 163-164); the two
access parameters are not used. -/
def BufferAndView.memoryBarrier (s : BufferAndView) (cmdBuffer : List PipelineBarrierCmd) (stagesDependedUpon stagesThatDepend accessesDependedUpon accessesThatDepend : Nat) : List PipelineBarrierCmd :=
  let barrier : VkBufferMemoryBarrier :=
    { srcAccessMask := stagesDependedUpon
      dstAccessMask := stagesThatDepend
      srcQueueFamilyIndex := VK_QUEUE_FAMILY_IGNORED
      dstQueueFamilyIndex := VK_QUEUE_FAMILY_IGNORED
      buffer := s.buffer
      offset := 0
      size := s.size }
  cmdBuffer ++ [{ srcStageMask := stagesDependedUpon, dstStageMask := stagesThatDepend,
                  bufferBarriers := [barrier], imageBarriers := [] }]

/-! ### ImageAndView (utilities_vk.h lines 240-339) -/

/-- `ImageAndView`: an NVVK image with a whole-image view, immutable
creation-time metadata, and mutable synchronization state. -/
structure ImageAndView where
  image : Nat
  view : Nat
  c_width : Nat
  c_height : Nat
  c_layers : Nat
  c_format : Nat
  currentLayout : Nat
  currentStages : Nat
  currentAccesses : Nat
deriving Repr, DecidableEq

/-- The initial state given by the member initializers
(utilities_vk.h lines 242-254): null handles, zero metadata,
layout undefined, stages top-of-pipe, no accesses. -/
def initImageAndView : ImageAndView :=
  { image := 0
    view := 0
    c_width := 0
    c_height := 0
    c_layers := 0
    c_format := VK_FORMAT_UNDEFINED
    currentLayout := VK_IMAGE_LAYOUT_UNDEFINED
    currentStages := VK_PIPELINE_STAGE_TOP_OF_PIPE_BIT
    currentAccesses := 0 }

/-- `ImageAndView::create` (lines 260-282): asserts the view is null,
allocates the image via `createImageSimple` and the view via
`vkCreateImageView` (opaque collaborators, whose resulting handles are
supplied as `newImage` and `newView`), and records width, height, layer
count and format. `imageType`, `viewAspect`, `additionalUsageFlags` and
`numSamples` flow only to the collaborators. The assertion failure on a
live view is modelled by `none`. No other field is assigned. -/
def ImageAndView.create (s : ImageAndView) (newImage newView imageType viewAspect format width height arrayLayers additionalUsageFlags numSamples : Nat) : Option ImageAndView :=
  if s.view = 0 then
    some { s with image := newImage
                  view := newView
                  c_width := width
                  c_height := height
                  c_layers := arrayLayers
                  c_format := format }
  else none

/-- `ImageAndView::destroy` (lines 285-296): when the view is live,
destroys the view and the image allocation (returned as external
actions) and resets view, currentLayout, currentStages and
currentAccesses; otherwise does nothing. -/
def ImageAndView.destroy (s : ImageAndView) : ImageAndView × List DestroyAction :=
  if s.view ≠ 0 then
    ({ s with view := 0
              currentLayout := VK_IMAGE_LAYOUT_UNDEFINED
              currentStages := VK_PIPELINE_STAGE_TOP_OF_PIPE_BIT
              currentAccesses := 0 },
     [DestroyAction.destroyImageView s.view, DestroyAction.destroyImage s.image])
  else (s, [])

/-- `ImageAndView::transitionTo` (lines 298-328): computes the aspect
mask from the target layout and the stored format, emits one barrier via
`doTransition` from the stored (currentLayout, currentStages,
currentAccesses) to the requested target triple over all `c_layers`
layers, then overwrites the stored triple with the target triple. -/
def ImageAndView.transitionTo (s : ImageAndView) (cmdBuffer : List PipelineBarrierCmd) (dstLayout dstStages dstAccesses : Nat) : ImageAndView × List PipelineBarrierCmd :=
  let aspectMask : Nat :=
    if dstLayout = VK_IMAGE_LAYOUT_DEPTH_STENCIL_ATTACHMENT_OPTIMAL then
      if s.c_format = VK_FORMAT_D32_SFLOAT_S8_UINT ∨ s.c_format = VK_FORMAT_D24_UNORM_S8_UINT then
        VK_IMAGE_ASPECT_DEPTH_BIT ||| VK_IMAGE_ASPECT_STENCIL_BIT
      else
        VK_IMAGE_ASPECT_DEPTH_BIT
    else
      VK_IMAGE_ASPECT_COLOR_BIT
  ({ s with currentLayout := dstLayout
            currentStages := dstStages
            currentAccesses := dstAccesses },
   doTransition cmdBuffer s.image aspectMask s.currentLayout s.currentStages s.currentAccesses dstLayout dstStages dstAccesses s.c_layers)

/-- `ImageAndView::endRenderPass` (line 332): records the layout the
render pass left the image in; assigns only `currentLayout`. -/
def ImageAndView.endRenderPass (s : ImageAndView) (dstLayout : Nat) : ImageAndView :=
  { s with currentLayout := dstLayout }

/-- A combined depth+stencil pixel format: one of the two formats the
aspect-mask computation of `transitionTo` tests for
(utilities_vk.h line 311). -/
def isCombinedDepthStencilFormat (f : Nat) : Prop :=
  f = VK_FORMAT_D32_SFLOAT_S8_UINT ∨ f = VK_FORMAT_D24_UNORM_S8_UINT

instance (f : Nat) : Decidable (isCombinedDepthStencilFormat f) := by
  unfold isCombinedDepthStencilFormat
  infer_instance

/-! ### Theorems -/

/-- C1: two consecutive `transitionTo` calls with no state mutation in
between compose: the second call appends exactly one pipeline-barrier
command whose before side (oldLayout, srcStageMask, srcAccessMask) is
exactly the first call's target triple (L1, S1, A1), and afterwards the
stored (currentLayout, currentStages, currentAccesses) is exactly
(L2, S2, A2). -/
theorem transitionTo_composes (s : ImageAndView) (cmd : List PipelineBarrierCmd)
    (L1 S1 A1 L2 S2 A2 : Nat) :
    ∃ c : PipelineBarrierCmd,
      ((s.transitionTo cmd L1 S1 A1).1.transitionTo (s.transitionTo cmd L1 S1 A1).2 L2 S2 A2).2
        = (s.transitionTo cmd L1 S1 A1).2 ++ [c] ∧
      c.srcStageMask = S1 ∧
      c.imageBarriers.map (fun b => b.oldLayout) = [L1] ∧
      c.imageBarriers.map (fun b => b.srcAccessMask) = [A1] ∧
      ((s.transitionTo cmd L1 S1 A1).1.transitionTo (s.transitionTo cmd L1 S1 A1).2 L2 S2 A2).1.currentLayout = L2 ∧
      ((s.transitionTo cmd L1 S1 A1).1.transitionTo (s.transitionTo cmd L1 S1 A1).2 L2 S2 A2).1.currentStages = S2 ∧
      ((s.transitionTo cmd L1 S1 A1).1.transitionTo (s.transitionTo cmd L1 S1 A1).2 L2 S2 A2).1.currentAccesses = A2 := by
  exact ⟨_, rfl, rfl, rfl, rfl, rfl, rfl, rfl⟩

/-- C2: the barrier emitted by `transitionTo` carries aspect = depth,
plus stencil exactly when the stored format is a combined depth+stencil
format, when the target layout is depth-stencil-attachment-optimal; for
any other target layout it carries aspect = color, regardless of the
stored format. -/
theorem transitionTo_aspectMask (s : ImageAndView) (cmd : List PipelineBarrierCmd)
    (L S A : Nat) :
    ∃ c b, (s.transitionTo cmd L S A).2 = cmd ++ [c] ∧ c.imageBarriers = [b] ∧
      b.subresourceRange.aspectMask =
        (if L = VK_IMAGE_LAYOUT_DEPTH_STENCIL_ATTACHMENT_OPTIMAL then
          (if isCombinedDepthStencilFormat s.c_format then
            VK_IMAGE_ASPECT_DEPTH_BIT ||| VK_IMAGE_ASPECT_STENCIL_BIT
          else VK_IMAGE_ASPECT_DEPTH_BIT)
        else VK_IMAGE_ASPECT_COLOR_BIT) := by
  refine ⟨_, _, rfl, rfl, ?_⟩
  by_cases hL : L = VK_IMAGE_LAYOUT_DEPTH_STENCIL_ATTACHMENT_OPTIMAL <;>
    by_cases hf : isCombinedDepthStencilFormat s.c_format <;>
      simp [hL, hf, isCombinedDepthStencilFormat] at *

/-- C3: contrary to the parameter names and the documented contract,
`BufferAndView::memoryBarrier` assigns the two stage parameters, not the
two access parameters, to the emitted barrier's srcAccessMask and
dstAccessMask: at the concrete call
memoryBarrier(stagesDependedUpon = 128, stagesThatDepend = 4096,
accessesDependedUpon = 64, accessesThatDepend = 32) on a buffer of
handle 1 and size 256, the emitted VkBufferMemoryBarrier has
srcAccessMask = 128 and dstAccessMask = 4096 rather than 64 and 32,
while the stage masks of the pipeline-barrier command do carry the
stage parameters. -/
theorem memoryBarrier_access_mask_mismatch :
    ∃ c b, BufferAndView.memoryBarrier ⟨1, 0, 256⟩ [] 128 4096 64 32 = [c] ∧
      c.bufferBarriers = [b] ∧
      c.srcStageMask = 128 ∧ c.dstStageMask = 4096 ∧
      b.srcAccessMask = 128 ∧ b.dstAccessMask = 4096 ∧
      ¬(b.srcAccessMask = 64 ∧ b.dstAccessMask = 32) := by
  exact ⟨_, _, rfl, rfl, rfl, rfl, rfl, rfl, by decide⟩

/-- C4: `endRenderPass(L)` sets the stored currentLayout to L and leaves
currentStages, currentAccesses and every other field (image, view,
width, height, layer count, format) unchanged. -/
theorem endRenderPass_updates_only_layout (s : ImageAndView) (L : Nat) :
    (s.endRenderPass L).currentLayout = L ∧
    (s.endRenderPass L).currentStages = s.currentStages ∧
    (s.endRenderPass L).currentAccesses = s.currentAccesses ∧
    (s.endRenderPass L).image = s.image ∧
    (s.endRenderPass L).view = s.view ∧
    (s.endRenderPass L).c_width = s.c_width ∧
    (s.endRenderPass L).c_height = s.c_height ∧
    (s.endRenderPass L).c_layers = s.c_layers ∧
    (s.endRenderPass L).c_format = s.c_format := by
  exact ⟨rfl, rfl, rfl, rfl, rfl, rfl, rfl, rfl, rfl⟩

/-- C5 counterexample: a successful `create` does not guarantee the
baseline synchronization state. Starting from the default-initialized
tracker, calling transitionTo(layout 2, stages 1024, accesses 256) and
then create (which succeeds, since the view is still null) leaves the
stored state at (2, 1024, 256), not at the baseline. -/
theorem create_after_transitionTo_not_baseline :
    ∃ t, ((initImageAndView.transitionTo [] 2 1024 256).1.create 5 7 1 1 37 100 200 1 0 1) = some t ∧
      ¬(t.currentLayout = VK_IMAGE_LAYOUT_UNDEFINED ∧
        t.currentStages = VK_PIPELINE_STAGE_TOP_OF_PIPE_BIT ∧
        t.currentAccesses = 0) := by
  exact ⟨_, rfl, by decide⟩

/-- C5 (amended): `create` never writes the synchronization state, so
after a successful `create` on a tracker whose synchronization state is
at the baseline (as a default-initialized tracker's is), the state still
equals the baseline: currentLayout = undefined, currentStages =
top-of-pipe, currentAccesses = none. -/
theorem create_from_baseline_keeps_baseline (s t : ImageAndView)
    (ni nv it va f w h l u ns : Nat)
    (hL : s.currentLayout = VK_IMAGE_LAYOUT_UNDEFINED)
    (hS : s.currentStages = VK_PIPELINE_STAGE_TOP_OF_PIPE_BIT)
    (hA : s.currentAccesses = 0)
    (hc : s.create ni nv it va f w h l u ns = some t) :
    t.currentLayout = VK_IMAGE_LAYOUT_UNDEFINED ∧
    t.currentStages = VK_PIPELINE_STAGE_TOP_OF_PIPE_BIT ∧
    t.currentAccesses = 0 := by
  unfold ImageAndView.create at hc
  split at hc
  · cases hc
    exact ⟨hL, hS, hA⟩
  · cases hc

/-- C5 witness: applying the amended theorem to the default-initialized
tracker and a concrete create call. -/
theorem create_from_baseline_keeps_baseline_witness :
    ∃ t, initImageAndView.create 5 7 1 1 37 100 200 1 0 1 = some t ∧
      (t.currentLayout = VK_IMAGE_LAYOUT_UNDEFINED ∧
       t.currentStages = VK_PIPELINE_STAGE_TOP_OF_PIPE_BIT ∧
       t.currentAccesses = 0) :=
  ⟨_, rfl, create_from_baseline_keeps_baseline initImageAndView _ 5 7 1 1 37 100 200 1 0 1 rfl rfl rfl rfl⟩

/-- C6: on a tracker holding a live view, `destroy` clears the view and
resets the synchronization state to the creation-time baseline; calling
`destroy` again immediately after is a no-op that issues no external
destruction action, as is `destroy` on any tracker with no live view. -/
theorem destroy_resets_and_is_idempotent (s : ImageAndView) (hv : s.view ≠ 0) :
    ((s.destroy).1.view = 0 ∧
     (s.destroy).1.currentLayout = VK_IMAGE_LAYOUT_UNDEFINED ∧
     (s.destroy).1.currentStages = VK_PIPELINE_STAGE_TOP_OF_PIPE_BIT ∧
     (s.destroy).1.currentAccesses = 0) ∧
    (s.destroy).1.destroy = ((s.destroy).1, []) ∧
    (∀ u : ImageAndView, u.view = 0 → u.destroy = (u, [])) := by
  unfold ImageAndView.destroy
  refine ⟨?_, ?_, ?_⟩
  · simp [hv]
  · simp [hv]
  · intro u hu
    simp [hu]

/-- C6 witness: applying the theorem to a tracker with a live view
(handle 5). -/
theorem destroy_resets_and_is_idempotent_witness :
    (5 : Nat) ≠ 0 ∧
    ((ImageAndView.destroy ⟨3, 5, 100, 200, 1, 37, 2, 1024, 256⟩).1.view = 0 ∧
     (ImageAndView.destroy ⟨3, 5, 100, 200, 1, 37, 2, 1024, 256⟩).1.currentLayout = VK_IMAGE_LAYOUT_UNDEFINED ∧
     (ImageAndView.destroy ⟨3, 5, 100, 200, 1, 37, 2, 1024, 256⟩).1.currentStages = VK_PIPELINE_STAGE_TOP_OF_PIPE_BIT ∧
     (ImageAndView.destroy ⟨3, 5, 100, 200, 1, 37, 2, 1024, 256⟩).1.currentAccesses = 0) ∧
    (ImageAndView.destroy ⟨3, 5, 100, 200, 1, 37, 2, 1024, 256⟩).1.destroy = ((ImageAndView.destroy ⟨3, 5, 100, 200, 1, 37, 2, 1024, 256⟩).1, []) :=
  ⟨by decide,
   (destroy_resets_and_is_idempotent ⟨3, 5, 100, 200, 1, 37, 2, 1024, 256⟩ (by decide)).1,
   (destroy_resets_and_is_idempotent ⟨3, 5, 100, 200, 1, 37, 2, 1024, 256⟩ (by decide)).2.1⟩

/-- C7: `ImageAndView::create` succeeds exactly when the tracker holds
no live view, and `BufferAndView::create` succeeds exactly when the
tracker holds no live buffer; a second create without an intervening
destroy hits the assertion (modelled by `none`). -/
theorem create_asserts_no_live_resource (s : ImageAndView) (b : BufferAndView)
    (ni nv it va f w h l u ns nb nbv sz us : Nat) :
    ((s.create ni nv it va f w h l u ns).isSome ↔ s.view = 0) ∧
    ((b.create nb nbv sz us).isSome ↔ b.buffer = 0) := by
  constructor
  · unfold ImageAndView.create
    split <;> simp_all
  · unfold BufferAndView.create
    split <;> simp_all

/-- C8: the single barrier emitted by `transitionTo` covers base mip
level 0 with level count 1, array layers 0 through the stored layer
count, and both queue-family indices are VK_QUEUE_FAMILY_IGNORED (no
ownership transfer). -/
theorem transitionTo_subresource_and_queues (s : ImageAndView)
    (cmd : List PipelineBarrierCmd) (L S A : Nat) :
    ∃ c b, (s.transitionTo cmd L S A).2 = cmd ++ [c] ∧ c.imageBarriers = [b] ∧
      b.subresourceRange.baseMipLevel = 0 ∧
      b.subresourceRange.levelCount = 1 ∧
      b.subresourceRange.baseArrayLayer = 0 ∧
      b.subresourceRange.layerCount = s.c_layers ∧
      b.srcQueueFamilyIndex = VK_QUEUE_FAMILY_IGNORED ∧
      b.dstQueueFamilyIndex = VK_QUEUE_FAMILY_IGNORED := by
  exact ⟨_, _, rfl, rfl, rfl, rfl, rfl, rfl, rfl, rfl⟩

/-- C9: a successful `create` assigns only the image handle, the view
and the four metadata fields, leaving currentLayout, currentStages and
currentAccesses untouched; consequently transitionTo-then-create on a
never-created tracker succeeds and leaves the synchronization state at
the transitionTo target values, not at the baseline. -/
theorem create_writes_no_sync_state (s t : ImageAndView)
    (ni nv it va f w h l u ns L S A : Nat)
    (hc : s.create ni nv it va f w h l u ns = some t) :
    t = { s with image := ni, view := nv, c_width := w, c_height := h,
                 c_layers := l, c_format := f } ∧
    ∃ u2, ((initImageAndView.transitionTo [] L S A).1.create ni nv it va f w h l u ns) = some u2 ∧
      u2.currentLayout = L ∧ u2.currentStages = S ∧ u2.currentAccesses = A := by
  constructor
  · unfold ImageAndView.create at hc
    split at hc
    · cases hc
      rfl
    · cases hc
  · exact ⟨_, rfl, rfl, rfl, rfl⟩

/-- C9 witness: applying the theorem at a concrete create call on the
default-initialized tracker. -/
theorem create_writes_no_sync_state_witness :
    initImageAndView.create 5 7 1 1 37 100 200 1 0 1 =
      some { initImageAndView with image := 5, view := 7, c_width := 100,
                                   c_height := 200, c_layers := 1, c_format := 37 } ∧
    ({ initImageAndView with image := 5, view := 7, c_width := 100,
                             c_height := 200, c_layers := 1, c_format := 37 }
      = { initImageAndView with image := 5, view := 7, c_width := 100,
                                c_height := 200, c_layers := 1, c_format := 37 } ∧
     ∃ u2, ((initImageAndView.transitionTo [] 2 1024 256).1.create 5 7 1 1 37 100 200 1 0 1) = some u2 ∧
       u2.currentLayout = 2 ∧ u2.currentStages = 1024 ∧ u2.currentAccesses = 256) :=
  ⟨rfl, create_writes_no_sync_state initImageAndView _ 5 7 1 1 37 100 200 1 0 1 2 1024 256 rfl⟩

/-- C10: `destroy` leaves the creation-time metadata fields c_width,
c_height, c_layers and c_format unchanged; in particular after
create-then-destroy the tracker still reports the destroyed image's
width, height, layer count and format. -/
theorem destroy_preserves_metadata (s : ImageAndView)
    (ni nv it va f w h l u ns : Nat) :
    ((s.destroy).1.c_width = s.c_width ∧
     (s.destroy).1.c_height = s.c_height ∧
     (s.destroy).1.c_layers = s.c_layers ∧
     (s.destroy).1.c_format = s.c_format) ∧
    (∃ t, initImageAndView.create ni nv it va f w h l u ns = some t ∧
      (t.destroy).1.c_width = w ∧
      (t.destroy).1.c_height = h ∧
      (t.destroy).1.c_layers = l ∧
      (t.destroy).1.c_format = f) := by
  constructor
  · unfold ImageAndView.destroy
    split <;> exact ⟨rfl, rfl, rfl, rfl⟩
  · refine ⟨_, rfl, ?_⟩
    unfold ImageAndView.destroy
    split <;> exact ⟨rfl, rfl, rfl, rfl⟩

end VkOit
